import Mathlib

/-!
# Shallow embedding of `src/main.py` (dockinfo)

The program is a Flask HTTP facade over the docker-py client.  Pure logic is
embedded directly; the runtime (docker daemon) is abstracted as explicit
`Except`-valued inputs describing the outcome of each runtime call, and the
single piece of mutable state (the module-global `docker_client`) is passed
and returned explicitly.

Python specifics modelled here:
* dictionaries of labels become association lists with `List.lookup`
  (docker label maps have unique keys);
* Python truthiness in `a or b` chains over `dict.get` results becomes
  `pyOr` (`None` and `""` are falsy);
* `str.lower` is modelled on its ASCII fragment (`Char.toLower`), which is
  all the program compares against (the literal `"true"`);
* exception handling: an `except` chain picks the FIRST clause whose class
  matches the raised exception.  In docker-py (`docker/errors.py`):
  `class DockerException(Exception)`, `class APIError(requests.HTTPError,
  DockerException)`, `class NotFound(APIError)` — so `docker.errors.NotFound`
  IS a `docker.errors.DockerException`, and a clause
  `except docker.errors.DockerException` placed before
  `except docker.errors.NotFound` also catches not-found errors.
-/

deriving instance DecidableEq for Except

namespace Dockinfo

/-- Exception values that can reach the handlers of `main.py`.
`notFound` is `docker.errors.NotFound`, `apiError` any other
`docker.errors.APIError`, `dockerException` a bare
`docker.errors.DockerException` (as raised by `get_docker_client`),
`otherExc` any exception outside the docker-py hierarchy. -/
inductive PyExc where
  | notFound (msg : String)
  | apiError (msg : String)
  | dockerException (msg : String)
  | otherExc (msg : String)
deriving DecidableEq, Repr

/-- Class test for `except docker.errors.DockerException`: in docker-py,
`NotFound <: APIError <: DockerException`, so every constructor except
`otherExc` is an instance of `DockerException`. -/
def PyExc.isDockerException : PyExc → Bool
  | .otherExc _ => false
  | _ => true

/-- Class test for `except docker.errors.NotFound`. -/
def PyExc.isNotFound : PyExc → Bool
  | .notFound _ => true
  | _ => false

/-- Python `str(e)`. -/
def PyExc.str : PyExc → String
  | .notFound m => m
  | .apiError m => m
  | .dockerException m => m
  | .otherExc m => m

/-- Label maps (`container.labels`): string-keyed dictionaries. -/
abbrev Labels := List (String × String)

/-- Python `labels.get(k)` (returns `None` when absent). -/
def dictGet (labels : Labels) (k : String) : Option String :=
  List.lookup k labels

/-- Python `labels.get(k, d)`. -/
def dictGetD (labels : Labels) (k : String) (d : String) : String :=
  (dictGet labels k).getD d

/-- Python `a or b` where `a` is a `dict.get` result (`None` or a string):
`None` and the empty string are falsy, so both fall through to `b`. -/
def pyOr (a : Option String) (b : String) : String :=
  match a with
  | none => b
  | some s => if s = "" then b else s

/-- ASCII model of Python `str.lower` (the program only compares against
the ASCII literal `"true"`). -/
def pyLower (s : String) : String :=
  ⟨s.data.map Char.toLower⟩

/-- Python slice `s[:n]`. -/
def pyTake (n : Nat) (s : String) : String :=
  ⟨s.data.take n⟩

/-- Python `c in s` for a single character. -/
def pyHasChar (s : String) (c : Char) : Bool :=
  s.data.contains c

/-- The label-only service descriptor `{name, url, description}`. -/
structure Service where
  name : String
  url : String
  description : String
deriving DecidableEq, Repr

/-- The service-dict construction duplicated verbatim in `main.py` at
lines 100-104 (`get_service_info_from_labels`), 189-193
(`get_enabled_services`) and 283-287 (`packages_by_label`):
```python
'name': labels.get('dockinfo.name') or labels.get('dockinfo.service.name') or container.name,
'url': labels.get('dockinfo.service.url') or labels.get('dockinfo.url', ''),
'description': labels.get('dockinfo.description', ''),
``` -/
def serviceFromLabels (labels : Labels) (containerName : String) : Service :=
  { name := pyOr (dictGet labels "dockinfo.name")
      (pyOr (dictGet labels "dockinfo.service.name") containerName)
    url := pyOr (dictGet labels "dockinfo.service.url") (dictGetD labels "dockinfo.url" "")
    description := dictGetD labels "dockinfo.description" "" }

/-- A container as seen by the label-based code paths: `container.labels`
(which docker-py may report as `None`, hence `Option`) and the
runtime-assigned `container.name`. -/
structure LContainer where
  labels : Option Labels
  name : String
deriving DecidableEq, Repr

/-- Python `container.labels or {}`. -/
def LContainer.effLabels (c : LContainer) : Labels :=
  c.labels.getD []

/-- Result of the label-only resolvers: either a service dict or an
`{'error': msg}` dict. -/
inductive SvcResult where
  | ok (s : Service)
  | err (msg : String)
deriving DecidableEq, Repr

/-- The `except` chain shared by `get_service_info_from_labels`
(lines 105-112) and `get_container_info` (lines 135-142):
```python
except docker.errors.DockerException as e:
    return {'error': 'Docker daemon not available. Make sure Docker socket is mounted.'}
except docker.errors.NotFound:
    return {'error': f'Container {container_name} not found'}
except Exception as e:
    return {'error': str(e)}
```
Clauses are tried in order; the first whose class matches wins.  Because
`NotFound <: DockerException` in docker-py, the first clause already
catches `NotFound`. -/
def lookupErrorMessage (e : PyExc) (container_name : String) : String :=
  if e.isDockerException then
    "Docker daemon not available. Make sure Docker socket is mounted."
  else if e.isNotFound then
    "Container " ++ container_name ++ " not found"
  else
    e.str

/-- `get_service_info_from_labels` (lines 90-112).  `lookup` is the outcome
of `get_docker_client()` plus `client.containers.get(container_name)`:
`.ok c` when the container was found, `.error e` when either step raised. -/
def get_service_info_from_labels (lookup : Except PyExc LContainer)
    (container_name : String) : SvcResult :=
  match lookup with
  | .ok container => .ok (serviceFromLabels container.effLabels container.name)
  | .error e => .err (lookupErrorMessage e container_name)

/-- The `attrs` dictionary fields read by `get_container_info`:
`attrs.get('Created')`, `attrs.get('NetworkSettings', {}).get('Ports', {})`,
`attrs.get('Config', {}).get('Env', [])`. -/
structure Attrs where
  created : Option String
  ports : List (String × String)
  env : List String
deriving DecidableEq, Repr

/-- A container as seen by `get_container_info`: runtime attributes used
by the full projection. -/
structure FContainer where
  name : String
  id : String
  imageTags : List String
  imageId : String
  status : String
  labels : Option Labels
  attrs : Attrs
deriving DecidableEq, Repr

/-- The full container info dict built at lines 122-132. -/
structure ContainerInfo where
  name : String
  id : String
  image : String
  image_id : String
  status : String
  labels : Option Labels
  created : Option String
  ports : List (String × String)
  environment : List String
deriving DecidableEq, Repr

/-- Result of `get_container_info`. -/
inductive InfoResult where
  | ok (i : ContainerInfo)
  | err (msg : String)
deriving DecidableEq, Repr

/-- `get_container_info` (lines 115-142).  `lookup` abstracts
`get_docker_client()` plus `client.containers.get(container_name)` plus the
attribute reads. -/
def get_container_info (lookup : Except PyExc FContainer)
    (container_name : String) : InfoResult :=
  match lookup with
  | .ok c =>
      .ok { name := c.name
            id := pyTake 12 c.id      -- container.id[:12]
            image := match c.imageTags with   -- tags[0] if tags else image.id
              | t :: _ => t
              | [] => c.imageId
            image_id := c.imageId
            status := c.status
            labels := c.labels
            created := c.attrs.created
            ports := c.attrs.ports
            environment := c.attrs.env }
  | .error e => .err (lookupErrorMessage e container_name)

/-- An abstract docker client handle. -/
structure DClient where
  handle : Nat
deriving DecidableEq, Repr

/-- `get_docker_client` (lines 61-87) as a transition on the module-global
`docker_client` (initially `None`).  `construct` is the outcome of the
`docker.DockerClient(...)` / `docker.from_env()` construction, `ping` the
outcome of `client.ping()`.  Returns the new global state and the call's
result.  Faithful detail: the global is assigned by
`docker_client = docker.DockerClient(...)` BEFORE `docker_client.ping()`
runs, so a ping failure leaves the global bound to the constructed,
never-verified client while the wrapped `DockerException` propagates. -/
def get_docker_client (docker_client : Option DClient)
    (construct : Except PyExc DClient) (ping : DClient → Except PyExc Unit) :
    Option DClient × Except PyExc DClient :=
  match docker_client with
  | some c => (some c, .ok c)
  | none =>
    match construct with
    | .error e =>
        (none, .error (.dockerException ("Docker daemon not available: " ++ e.str)))
    | .ok c =>
        match ping c with
        | .error e =>
            (some c, .error (.dockerException ("Docker daemon not available: " ++ e.str)))
        | .ok _ => (some c, .ok c)

/-- `get_enabled_services` (lines 171-205).  `listing` is the outcome of
`get_docker_client()` plus `client.containers.list(all=True)`.  Both
`except` clauses return `[]`.  The loop's `continue` / conditional
`append` is the `filterMap`. -/
def get_enabled_services (listing : Except PyExc (List LContainer)) :
    List Service :=
  match listing with
  | .error _ => []
  | .ok cs =>
    cs.filterMap (fun c =>
      let labels := c.effLabels
      if pyLower (dictGetD labels "dockinfo.enable" "") ≠ "true" then
        none
      else
        let service := serviceFromLabels labels c.name
        if service.name ≠ "" then some service else none)

/-- Response of the `/by-label` handler `packages_by_label` (lines 258-301):
400 for a missing or malformed filter, 200 with `{filter, count, packages}`,
503 on `DockerException`, 500 on any other exception. -/
inductive ByLabelResp where
  | badRequest (msg : String)
  | ok (filterStr : String) (count : Nat) (packages : List Service)
  | unavailable (msg : String)
  | serverError (msg : String)
deriving DecidableEq, Repr

/-- Python `label_filter.split('=', 1)`: split at the FIRST `=` only. -/
def splitOnceEq (s : String) : String × String :=
  (⟨s.data.takeWhile (fun c => c ≠ '=')⟩,
   ⟨(s.data.dropWhile (fun c => c ≠ '=')).tail⟩)

/-- `packages_by_label` (lines 258-301).  `label_filter` is
`request.args.get('label')` (`none` when absent); `listing` the outcome of
`get_docker_client()` plus `client.containers.list(all=True)`, which the
handler only consults after the filter has been validated. -/
def packages_by_label (label_filter : Option String)
    (listing : Except PyExc (List LContainer)) : ByLabelResp :=
  match label_filter with
  | none => .badRequest "Label filter required (e.g., ?label=dockinfo.enable=true)"
  | some f =>
    if f = "" then   -- empty string is falsy: `if not label_filter`
      .badRequest "Label filter required (e.g., ?label=dockinfo.enable=true)"
    else if ¬ pyHasChar f '=' then
      .badRequest "Label filter must be in format key=value"
    else
      let kv := splitOnceEq f
      match listing with
      | .error e =>
        if e.isDockerException then
          .unavailable "Docker daemon not available. Make sure Docker socket is mounted."
        else .serverError e.str
      | .ok cs =>
        let matching := cs.filterMap (fun c =>
          let labels := c.effLabels
          if dictGet labels kv.1 = some kv.2 then
            let service := serviceFromLabels labels c.name
            if service.name ≠ "" then some service else none
          else none)
        .ok f matching.length matching

/-- A container as seen by the `/list` scan: each attribute access
(`container.name`, `container.id`, `container.image.tags`,
`container.image.id`, `container.status`) may raise. -/
structure RtContainer where
  nameA : Except PyExc String
  idA : Except PyExc String
  imageTagsA : Except PyExc (List String)
  imageIdA : Except PyExc String
  statusA : Except PyExc String
deriving DecidableEq, Repr

/-- One entry of the `/list` response. -/
structure ListEntry where
  name : String
  id : String
  image : String
  status : String
deriving DecidableEq, Repr

/-- The INNER try of the `/list` loop (lines 347-354): any failure while
reading image tags (or the fallback image id) yields the string
`'unknown'`; it does NOT skip the container. -/
def listItemImage (c : RtContainer) : String :=
  match c.imageTagsA with
  | .error _ => "unknown"
  | .ok tags =>
    match tags with
    | t :: _ => t
    | [] =>
      match c.imageIdA with
      | .error _ => "unknown"
      | .ok i => if i.data.length > 19 then pyTake 19 i else i

/-- The OUTER per-item try of the `/list` loop (lines 345-365): the element
is appended unless reading `container.name`, `container.id` or
`container.status` raises, in which case it is skipped (warning logged,
`continue`). -/
def listItemProj (c : RtContainer) : Option ListEntry :=
  let image_info := listItemImage c
  match c.nameA, c.idA, c.statusA with
  | .ok n, .ok i, .ok st =>
      some { name := n, id := pyTake 12 i, image := image_info, status := st }
  | _, _, _ => none

/-- Response of the `/list` handler. -/
inductive ListResp where
  | ok (count : Nat) (containers : List ListEntry)
  | unavailable (msg : String)
  | serverError (msg : String)
deriving DecidableEq, Repr

/-- `list_containers` (lines 336-376). -/
def list_containers (listing : Except PyExc (List RtContainer)) : ListResp :=
  match listing with
  | .error e =>
    if e.isDockerException then
      .unavailable "Docker daemon not available. Make sure Docker socket is mounted."
    else .serverError e.str
  | .ok cs =>
    let containers := cs.filterMap listItemProj
    .ok containers.length containers

/-- Python `a or b` on two `Option String` values (header / query param):
`None` and `""` are falsy. -/
def pyOrOpt (a b : Option String) : Option String :=
  match a with
  | none => b
  | some s => if s = "" then b else some s

/-- Response of the `/package` (query form) handler. -/
inductive PkgResp where
  | badRequest (msg : String)
  | ok (r : SvcResult)
deriving DecidableEq, Repr

/-- `package_info_query` (lines 243-255):
`container_name = request.headers.get('X-Container-Name') or
request.args.get('container')`; 400 when the result is falsy, otherwise
`get_service_info_from_labels(container_name)`.  `lookup` gives the
runtime's answer for each name. -/
def package_info_query (headerName queryName : Option String)
    (lookup : String → Except PyExc LContainer) : PkgResp :=
  match pyOrOpt headerName queryName with
  | none =>
      .badRequest "Container name required (header X-Container-Name or query param container)"
  | some n =>
    if n = "" then
      .badRequest "Container name required (header X-Container-Name or query param container)"
    else
      .ok (get_service_info_from_labels (lookup n) n)

/-- Response of the `/my-info` handler: its 400 body carries an extra
`hint` field. -/
inductive MyInfoResp where
  | badRequest (error hint : String)
  | ok (r : SvcResult)
deriving DecidableEq, Repr

/-- `my_info` (lines 304-319): same name selection as
`package_info_query`, different 400 body. -/
def my_info (headerName queryName : Option String)
    (lookup : String → Except PyExc LContainer) : MyInfoResp :=
  match pyOrOpt headerName queryName with
  | none =>
      .badRequest "Container name required" "Set X-Container-Name header or container query parameter"
  | some n =>
    if n = "" then
      .badRequest "Container name required" "Set X-Container-Name header or container query parameter"
    else
      .ok (get_service_info_from_labels (lookup n) n)

/-! ## Origin policy (`origin_allowed`, lines 30-53)

`fnmatch.fnmatch` is modelled by tokenizing the pattern (`*`, `?`,
character classes `[...]` / `[!...]`, everything else literal — the
translation performed by `fnmatch.translate`) and matching the token list
against the whole string.  On POSIX `os.path.normcase` is the identity,
so matching is case-sensitive. -/

/-- Tokens of an fnmatch pattern. -/
inductive GlobTok where
  | star
  | anyc
  | lit (c : Char)
  | cls (neg : Bool) (items : List (Char × Char))
deriving DecidableEq, Repr

/-- Scan to the closing `]` of a character-class body: returns the body
and the remainder after the `]`, or `none` if there is no closing `]`. -/
def splitClose : List Char → Option (List Char × List Char)
  | [] => none
  | c :: t =>
    if c = ']' then some ([], t)
    else (splitClose t).map (fun p => (c :: p.1, p.2))

/-- After an opening `[`: an optional leading `!` negates the class, and a
`]` standing first in the body is a literal member; then scan for the
closing `]`.  `none` when there is none (the `[` is then literal). -/
def parseAfterBracket (cs : List Char) : Option (Bool × List Char × List Char) :=
  let x := match cs with
    | '!' :: t => (true, t)
    | _ => (false, cs)
  match x.2 with
  | ']' :: t => (splitClose t).map (fun p => (x.1, ']' :: p.1, p.2))
  | rest => (splitClose rest).map (fun p => (x.1, p.1, p.2))

/-- Turn a class body into single characters and `a-b` ranges; a hyphen
first or last in the body is literal. -/
def classItems : List Char → List (Char × Char)
  | [] => []
  | a :: '-' :: b :: rest => (a, b) :: classItems rest
  | a :: rest => (a, a) :: classItems rest

/-- Membership of a character in a (possibly negated) class. -/
def inClass (neg : Bool) (items : List (Char × Char)) (c : Char) : Bool :=
  let mem := items.any (fun p => decide (p.1 ≤ c ∧ c ≤ p.2))
  if neg then !mem else mem

/-- Tokenize an fnmatch pattern.  Fuel-indexed so the recursion stays
structural (after a character class the scan continues past the scanned
body); `globTokens` supplies fuel `cs.length`, which suffices because
every step continues on a strictly shorter list. -/
def globTokensF : Nat → List Char → List GlobTok
  | 0, _ => []
  | _ + 1, [] => []
  | n + 1, c :: t =>
    if c = '*' then .star :: globTokensF n t
    else if c = '?' then .anyc :: globTokensF n t
    else if c = '[' then
      match parseAfterBracket t with
      | some (neg, body, rest) => .cls neg (classItems body) :: globTokensF n rest
      | none => .lit '[' :: globTokensF n t
    else .lit c :: globTokensF n t

/-- Tokenized form of an fnmatch pattern string. -/
def globTokens (s : String) : List GlobTok :=
  globTokensF s.data.length s.data

/-- `*` matches any (possibly empty) sequence: try the continuation on
every suffix of the string. -/
def tryStar (f : List Char → Bool) : List Char → Bool
  | [] => f []
  | c :: t => f (c :: t) || tryStar f t

/-- Match a tokenized fnmatch pattern against a string (the pattern is
anchored at both ends, as `fnmatch.translate` produces). -/
def matchTok : List GlobTok → List Char → Bool
  | [], s => s.isEmpty
  | .star :: p, s => tryStar (matchTok p) s
  | .anyc :: p, s =>
    match s with
    | [] => false
    | _ :: t => matchTok p t
  | .cls neg items :: p, s =>
    match s with
    | [] => false
    | c :: t => inClass neg items c && matchTok p t
  | .lit c :: p, s =>
    match s with
    | [] => false
    | d :: t => c == d && matchTok p t

/-- Python `fnmatch.fnmatch(name, pattern)` (case-sensitive on POSIX). -/
def fnmatch (name pattern : String) : Bool :=
  matchTok (globTokens pattern) name.data

/-- Python `sub in s` (substring containment). -/
def hasSubstr (s sub : List Char) : Bool :=
  if sub.isPrefixOf s then true
  else
    match s with
    | [] => false
    | _ :: t => hasSubstr t sub

/-- Python `s.split(sep, 1)[1]` for a string separator: the part after the
FIRST occurrence, `none` when the separator does not occur (so
`afterSubstr s sub = some r` exactly when `sub in s`). -/
def afterSubstr (s sub : List Char) : Option (List Char) :=
  if sub.isPrefixOf s then some (s.drop sub.length)
  else
    match s with
    | [] => none
    | _ :: t => afterSubstr t sub

/-- `origin_allowed(origin)` (lines 30-53) with the module-level
`allowed_origins_config` passed explicitly.  An absent `Origin` header is
`None` in Flask and falsy like `""`; both are modelled by `""`.  The
`pattern.replace('*.', '*.').replace('*', '*')` at line 42 is the
identity, so `fnmatch_pattern = pattern`.  The scheme-stripped fallback
(lines 46-51) runs only for patterns containing `*` and `://`, and only
when the origin also contains `://`. -/
def origin_allowed (allowed_origins_config : List String) (origin : String) : Bool :=
  if origin = "" then false
  else
    allowed_origins_config.any (fun pattern =>
      origin == pattern
      || (pyHasChar pattern '*'
          && (fnmatch origin pattern
              || (match afterSubstr pattern.data "://".data,
                        afterSubstr origin.data "://".data with
                  | some domainPattern, some originDomain =>
                      fnmatch ⟨originDomain⟩ ⟨domainPattern⟩
                  | _, _ => false))))

/-! ## Spec-side vocabulary and response accessors -/

/-- The spec's priority chain, stated independently of Python truthiness:
the first non-empty candidate in the list (absent labels contribute `""`). -/
def firstNonEmpty : List String → String
  | [] => ""
  | c :: rest => if c = "" then firstNonEmpty rest else c

/-- The `packages` field of a `/by-label` response (empty on error). -/
def ByLabelResp.pkgList : ByLabelResp → List Service
  | .ok _ _ pkgs => pkgs
  | _ => []

/-- The `containers` field of a `/list` response (empty on error). -/
def ListResp.containersOf : ListResp → List ListEntry
  | .ok _ cs => cs
  | _ => []

/-- The `count` field of a `/list` response (0 on error). -/
def ListResp.countOf : ListResp → Nat
  | .ok n _ => n
  | _ => 0

/-! ## Helper lemmas -/

theorem pyOr_chain2 (a b : Option String) :
    pyOr a (b.getD "") = firstNonEmpty [a.getD "", b.getD ""] := by
  cases a <;> cases b <;>
    simp only [pyOr, firstNonEmpty, Option.getD] <;> split_ifs <;> simp_all

theorem pyOr_chain3 (a b : Option String) (c : String) :
    pyOr a (pyOr b c) = firstNonEmpty [a.getD "", b.getD "", c] := by
  cases a <;> cases b <;>
    simp only [pyOr, firstNonEmpty, Option.getD] <;> split_ifs <;> simp_all

/-- The truthiness chains of the shared service projection are exactly the
spec's first-non-empty priority chains. -/
theorem serviceFromLabels_eq_chains (labels : Labels) (n : String) :
    serviceFromLabels labels n
      = { name := firstNonEmpty [dictGetD labels "dockinfo.name" "",
                                 dictGetD labels "dockinfo.service.name" "", n]
          url := firstNonEmpty [dictGetD labels "dockinfo.service.url" "",
                                dictGetD labels "dockinfo.url" ""]
          description := dictGetD labels "dockinfo.description" "" } := by
  simp [serviceFromLabels, dictGetD, pyOr_chain3, pyOr_chain2]

theorem firstNonEmpty_last_ne (a b n : String) (h : n ≠ "") :
    firstNonEmpty [a, b, n] ≠ "" := by
  simp only [firstNonEmpty]
  split_ifs <;> simp_all

/-- C1 (code evaluated at the failing input): when the container lookup
raises `docker.errors.NotFound`, both resolvers return the
daemon-not-available error body, not the not-found one: `NotFound` is a
subclass of `DockerException` in docker-py, so the first `except` clause
catches it and the `except NotFound` branches at lines 108-109 and 138-139
are unreachable. -/
theorem get_container_info_notFound_yields_daemon_message :
    get_container_info (.error (.notFound "404 Client Error")) "ghost"
      = .err "Docker daemon not available. Make sure Docker socket is mounted."
    ∧ get_service_info_from_labels (.error (.notFound "404 Client Error")) "ghost"
      = .err "Docker daemon not available. Make sure Docker socket is mounted."
    ∧ get_container_info (.error (.notFound "404 Client Error")) "ghost"
      ≠ .err "Container ghost not found" := by
  refine ⟨rfl, rfl, ?_⟩
  decide

/-- C2 (code evaluated at the failing input): `get_docker_client` assigns
the module-global BEFORE `ping()` runs, so a failed liveness probe leaves
the global bound to the constructed, never-verified client; the next call
finds the global non-`None` and returns that client without constructing
or probing again (here: even under a construction and a probe that would
both fail). -/
theorem get_docker_client_memoizes_failed_ping :
    get_docker_client none (.ok ⟨0⟩) (fun _ => .error (.otherExc "ping fail"))
      = (some ⟨0⟩, .error (.dockerException "Docker daemon not available: ping fail"))
    ∧ get_docker_client (some ⟨0⟩) (.error (.otherExc "no socket"))
        (fun _ => .error (.otherExc "ping fail"))
      = (some ⟨0⟩, .ok ⟨0⟩) := by
  exact ⟨rfl, rfl⟩

/-- C6: on total runtime unavailability (`get_docker_client` raises a
`DockerException`), `get_enabled_services` returns the empty list, while
`list_containers` returns a 503 response with the daemon-not-available
error body — two distinct handled failure modes. -/
theorem unavailable_modes_distinct (msg : String) :
    get_enabled_services (.error (.dockerException msg)) = []
    ∧ list_containers (.error (.dockerException msg))
      = .unavailable "Docker daemon not available. Make sure Docker socket is mounted." :=
  ⟨rfl, rfl⟩

/-- C3: a descriptor is in the `get_enabled_services` result exactly when
some listed container carries the label `dockinfo.enable` with value equal
to `"true"` under case-insensitive comparison AND resolves to a non-empty
name, and the descriptor is that container's projection; every other
container is silently excluded. -/
theorem get_enabled_services_membership (cs : List LContainer) (s : Service) :
    s ∈ get_enabled_services (.ok cs)
      ↔ ∃ c ∈ cs,
          (∃ v, dictGet c.effLabels "dockinfo.enable" = some v ∧ pyLower v = "true")
          ∧ (serviceFromLabels c.effLabels c.name).name ≠ ""
          ∧ s = serviceFromLabels c.effLabels c.name := by
  simp only [get_enabled_services, List.mem_filterMap]
  constructor
  · rintro ⟨c, hc, h⟩
    refine ⟨c, hc, ?_⟩
    have h' : (if pyLower (dictGetD c.effLabels "dockinfo.enable" "") ≠ "true" then none
               else if (serviceFromLabels c.effLabels c.name).name ≠ "" then
                 some (serviceFromLabels c.effLabels c.name) else none)
        = some s := h
    by_cases h1 : pyLower (dictGetD c.effLabels "dockinfo.enable" "") = "true"
    · rw [if_neg (not_not_intro h1)] at h'
      by_cases h2 : (serviceFromLabels c.effLabels c.name).name = ""
      · rw [if_neg (not_not_intro h2)] at h'
        exact absurd h' (by simp)
      · rw [if_pos h2] at h'
        rw [Option.some_inj] at h'
        refine ⟨?_, h2, h'.symm⟩
        cases hv : dictGet c.effLabels "dockinfo.enable" with
        | none =>
          rw [dictGetD, hv, Option.getD_none] at h1
          exact absurd h1 (by decide)
        | some v =>
          refine ⟨v, rfl, ?_⟩
          rwa [dictGetD, hv, Option.getD_some] at h1
    · rw [if_pos h1] at h'
      exact absurd h' (by simp)
  · rintro ⟨c, hc, ⟨v, hv, hlv⟩, hn, rfl⟩
    refine ⟨c, hc, ?_⟩
    show (if pyLower (dictGetD c.effLabels "dockinfo.enable" "") ≠ "true" then none
          else if (serviceFromLabels c.effLabels c.name).name ≠ "" then
            some (serviceFromLabels c.effLabels c.name) else none)
        = some (serviceFromLabels c.effLabels c.name)
    rw [dictGetD, hv, Option.getD_some, hlv, if_neg (not_not_intro rfl), if_pos hn]

/-- C4: for an existing container, `get_service_info_from_labels` is not
an error and returns the descriptor whose `name` is the first non-empty of
[`dockinfo.name` label, `dockinfo.service.name` label, runtime-assigned
container name] — non-empty whenever the runtime name is — whose `url` is
the first non-empty of [`dockinfo.service.url` label, `dockinfo.url`
label] (else `""`), and whose `description` is the `dockinfo.description`
label (else `""`); a container with no labels at all is treated as an
empty label mapping, not an error. -/
theorem get_service_info_from_labels_projection (c : LContainer) (q : String)
    (h : c.name ≠ "") :
    get_service_info_from_labels (.ok c) q
      = .ok { name := firstNonEmpty [dictGetD c.effLabels "dockinfo.name" "",
                                     dictGetD c.effLabels "dockinfo.service.name" "", c.name]
              url := firstNonEmpty [dictGetD c.effLabels "dockinfo.service.url" "",
                                    dictGetD c.effLabels "dockinfo.url" ""]
              description := dictGetD c.effLabels "dockinfo.description" "" }
    ∧ firstNonEmpty [dictGetD c.effLabels "dockinfo.name" "",
                     dictGetD c.effLabels "dockinfo.service.name" "", c.name] ≠ ""
    ∧ get_service_info_from_labels (.ok ⟨none, c.name⟩) q
      = get_service_info_from_labels (.ok ⟨some [], c.name⟩) q := by
  refine ⟨?_, firstNonEmpty_last_ne _ _ _ h, rfl⟩
  show SvcResult.ok (serviceFromLabels c.effLabels c.name) = _
  rw [serviceFromLabels_eq_chains]

/-- Witness for C4: a container whose `dockinfo.name` label is present but
empty and whose `dockinfo.service.name` is `"Website"` resolves to name
`"Website"`. -/
theorem get_service_info_from_labels_projection_witness :
    ("web1" : String) ≠ ""
    ∧ get_service_info_from_labels
        (.ok ⟨some [("dockinfo.name", ""), ("dockinfo.service.name", "Website")], "web1"⟩) "web1"
      = .ok ⟨"Website", "", ""⟩ := by
  refine ⟨by decide, ?_⟩
  have h := get_service_info_from_labels_projection
    ⟨some [("dockinfo.name", ""), ("dockinfo.service.name", "Website")], "web1"⟩ "web1" (by decide)
  rw [h.1]
  rfl

theorem hasChar_false_iff (l : List Char) (c : Char) :
    l.contains c = false ↔ c ∉ l := by
  simp [List.contains, List.elem_eq_mem]

theorem takeWhile_append_first (r : List Char) :
    ∀ l : List Char, '=' ∉ l →
      ((l ++ '=' :: r).takeWhile (fun c => c ≠ '=') = l
       ∧ (l ++ '=' :: r).dropWhile (fun c => c ≠ '=') = '=' :: r) := by
  intro l
  induction l with
  | nil =>
    intro _
    constructor <;> simp
  | cons a t ih =>
    intro hm
    have ha : a ≠ '=' := fun hEq => hm (hEq ▸ List.mem_cons_self a t)
    have ht : Not ('=' ∈ t) := fun hmem => hm (List.mem_cons_of_mem a hmem)
    have iht := ih ht
    constructor
    · rw [List.cons_append, List.takeWhile_cons_of_pos (by simp [ha]), iht.1]
    · rw [List.cons_append, List.dropWhile_cons_of_pos (by simp [ha]), iht.2]

/-- `label_filter.split('=', 1)` splits at the first `=` only. -/
theorem splitOnceEq_append (key value : String) (h : pyHasChar key '=' = false) :
    splitOnceEq (key ++ "=" ++ value) = (key, value) := by
  have hm : '=' ∉ key.data := (hasChar_false_iff key.data '=').mp h
  have hdata : (key ++ "=" ++ value).data = key.data ++ '=' :: value.data := by
    simp [String.data_append]
  have hsplit := takeWhile_append_first value.data key.data hm
  simp only [splitOnceEq, hdata, hsplit.1, hsplit.2]
  rfl

/-- C5: a filter string without `=` yields a 400 error body regardless of
the runtime's state (the runtime is never consulted); a filter
`key ++ "=" ++ value` (`key` without `=`) splits at the first `=`, so
values may contain `=` themselves (`"a=b=c"` gives key `"a"`, value
`"b=c"`); and a container contributes to the response exactly when its
label mapping has the split key with exactly the split value (and, as
everywhere in this program, its resolved name is non-empty). -/
theorem packages_by_label_filter (f key value : String)
    (cs : List LContainer) (s : Service) :
    (pyHasChar f '=' = false →
      ∃ msg, ∀ listing, packages_by_label (some f) listing = .badRequest msg)
    ∧ (pyHasChar key '=' = false →
        splitOnceEq (key ++ "=" ++ value) = (key, value))
    ∧ (pyHasChar f '=' = true →
        (s ∈ (packages_by_label (some f) (.ok cs)).pkgList
          ↔ ∃ c ∈ cs,
              dictGet c.effLabels (splitOnceEq f).1 = some (splitOnceEq f).2
              ∧ (serviceFromLabels c.effLabels c.name).name ≠ ""
              ∧ s = serviceFromLabels c.effLabels c.name)) := by
  refine ⟨?_, fun hk => splitOnceEq_append key value hk, ?_⟩
  · intro h
    by_cases hf : f = ""
    · exact ⟨"Label filter required (e.g., ?label=dockinfo.enable=true)",
        fun listing => by rw [hf]; rfl⟩
    · refine ⟨"Label filter must be in format key=value", fun listing => ?_⟩
      show (if f = "" then _ else if ¬ pyHasChar f '=' then _ else _) = _
      rw [if_neg hf, if_pos (by simp [h])]
  · intro h
    have hf : ¬ f = "" := by
      intro hf
      rw [hf] at h
      exact absurd h (by decide)
    have hresp : packages_by_label (some f) (.ok cs)
        = .ok f (cs.filterMap (fun c =>
            if dictGet c.effLabels (splitOnceEq f).1 = some (splitOnceEq f).2 then
              (if (serviceFromLabels c.effLabels c.name).name ≠ "" then
                some (serviceFromLabels c.effLabels c.name) else none)
            else none)).length
          (cs.filterMap (fun c =>
            if dictGet c.effLabels (splitOnceEq f).1 = some (splitOnceEq f).2 then
              (if (serviceFromLabels c.effLabels c.name).name ≠ "" then
                some (serviceFromLabels c.effLabels c.name) else none)
            else none)) := by
      show (if f = "" then _ else if ¬ pyHasChar f '=' then _ else _) = _
      rw [if_neg hf, if_neg (by simp [h])]
    rw [hresp]
    show _ ∈ List.filterMap _ cs ↔ _
    rw [List.mem_filterMap]
    constructor
    · rintro ⟨c, hc, hsome⟩
      refine ⟨c, hc, ?_⟩
      by_cases h1 : dictGet c.effLabels (splitOnceEq f).1 = some (splitOnceEq f).2
      · rw [if_pos h1] at hsome
        by_cases h2 : (serviceFromLabels c.effLabels c.name).name = ""
        · rw [if_neg (not_not_intro h2)] at hsome
          exact absurd hsome (by simp)
        · rw [if_pos h2, Option.some_inj] at hsome
          exact ⟨h1, h2, hsome.symm⟩
      · rw [if_neg h1] at hsome
        exact absurd hsome (by simp)
    · rintro ⟨c, hc, h1, h2, rfl⟩
      exact ⟨c, hc, by rw [if_pos h1, if_pos h2]⟩

/-- Witness for C5: `"a=b=c"` splits into key `"a"`, value `"b=c"`;
`"noequals"` yields a 400 error body for every runtime state; and a
container labelled `a=b=c` is returned by the filter `a=b=c`. -/
theorem packages_by_label_filter_witness :
    splitOnceEq ("a" ++ "=" ++ "b=c") = ("a", "b=c")
    ∧ (∃ msg, ∀ listing, packages_by_label (some "noequals") listing = .badRequest msg)
    ∧ (⟨"web", "", ""⟩ : Service)
        ∈ (packages_by_label (some "a=b=c") (.ok [⟨some [("a", "b=c")], "web"⟩])).pkgList := by
  refine ⟨(packages_by_label_filter "noequals" "a" "b=c" [] ⟨"", "", ""⟩).2.1 (by decide),
          (packages_by_label_filter "noequals" "a" "b=c" [] ⟨"", "", ""⟩).1 (by decide),
          ((packages_by_label_filter "a=b=c" "a" "b=c" [⟨some [("a", "b=c")], "web"⟩]
              ⟨"web", "", ""⟩).2.2 (by decide)).mpr
            ⟨⟨some [("a", "b=c")], "web"⟩, by decide, by decide, by decide, by decide⟩⟩

/-- C7: the origin policy rejects an empty/absent origin; allows an exact
allow-list match; for an entry containing `*`, allows a full-string
fnmatch match, and — for entries containing `://` — allows a
scheme-stripped domain fnmatch match when the origin also contains `://`;
in particular the entry `https://*.example.com` admits origin
`https://api.example.com` but not `https://example.com`. -/
theorem origin_allowed_policy (allow : List String) (origin pattern : String) :
    (origin_allowed allow "" = false)
    ∧ (origin ∈ allow → origin ≠ "" → origin_allowed allow origin = true)
    ∧ (pattern ∈ allow → origin ≠ "" → pyHasChar pattern '*' = true →
        fnmatch origin pattern = true → origin_allowed allow origin = true)
    ∧ (pattern ∈ allow → origin ≠ "" → pyHasChar pattern '*' = true →
        ∀ dp od, afterSubstr pattern.data "://".data = some dp →
          afterSubstr origin.data "://".data = some od →
          fnmatch ⟨od⟩ ⟨dp⟩ = true → origin_allowed allow origin = true)
    ∧ origin_allowed ["https://*.example.com"] "https://api.example.com" = true
    ∧ origin_allowed ["https://*.example.com"] "https://example.com" = false := by
  refine ⟨rfl, ?_, ?_, ?_, by decide, by decide⟩
  · intro hmem hne
    show (if origin = "" then false else _) = true
    rw [if_neg hne, List.any_eq_true]
    exact ⟨origin, hmem, by simp⟩
  · intro hmem hne hstar hfn
    show (if origin = "" then false else _) = true
    rw [if_neg hne, List.any_eq_true]
    exact ⟨pattern, hmem, by simp [hstar, hfn]⟩
  · intro hmem hne hstar dp od hdp hod hfn
    show (if origin = "" then false else _) = true
    rw [if_neg hne, List.any_eq_true]
    refine ⟨pattern, hmem, ?_⟩
    simp [hstar, hdp, hod, hfn]

/-- Witness for C7: an exact-match origin is allowed, and the wildcard
entry admits the subdomain origin. -/
theorem origin_allowed_policy_witness :
    origin_allowed ["https://*.example.com", "https://royadler.de"] "https://royadler.de" = true
    ∧ origin_allowed ["https://*.example.com"] "https://api.example.com" = true := by
  constructor
  · exact (origin_allowed_policy ["https://*.example.com", "https://royadler.de"]
      "https://royadler.de" "x").2.1 (by decide) (by decide)
  · exact (origin_allowed_policy ["https://*.example.com"] "https://api.example.com"
      "https://*.example.com").2.2.1 (by decide) (by decide) (by decide) (by decide)

/-- C8 counterexample: a container whose image-tags lookup raises is NOT
skipped by the `/list` scan — the response still contains it, with image
`'unknown'` (the inner `try` at lines 348-354 substitutes `'unknown'`
rather than skipping the element). -/
theorem list_containers_image_failure_kept :
    list_containers (.ok [⟨.ok "web1", .ok "abcdef1234567890", .error (.otherExc "boom"),
        .ok "sha256:0123456789abcdef0123", .ok "running"⟩])
      = .ok 1 [⟨"web1", "abcdef123456", "unknown", "running"⟩]
    ∧ list_containers (.ok [⟨.ok "web1", .ok "abcdef1234567890", .error (.otherExc "boom"),
        .ok "sha256:0123456789abcdef0123", .ok "running"⟩])
      ≠ .ok 0 [] := by
  exact ⟨rfl, by decide⟩

/-- C8 amended: the `/list` scan is per-item fault-tolerant: the response
succeeds, its `count` equals the length of its list, an entry appears
exactly when its container projected successfully, and a container is
skipped precisely when reading its `name`, `id` or `status` raised; a
failure reading the image tags alone does NOT skip the element — it is
kept with image `'unknown'`. -/
theorem list_containers_scan (cs : List RtContainer) (c : RtContainer)
    (e : ListEntry) :
    ((list_containers (.ok cs)).countOf = (list_containers (.ok cs)).containersOf.length)
    ∧ (∃ n l, list_containers (.ok cs) = .ok n l)
    ∧ (e ∈ (list_containers (.ok cs)).containersOf ↔ ∃ c2 ∈ cs, listItemProj c2 = some e)
    ∧ (listItemProj c = none
        ↔ (c.nameA.isOk = false ∨ c.idA.isOk = false ∨ c.statusA.isOk = false))
    ∧ (∀ n i st, c.nameA = .ok n → c.idA = .ok i → c.statusA = .ok st →
        c.imageTagsA.isOk = false →
        listItemProj c = some ⟨n, pyTake 12 i, "unknown", st⟩) := by
  refine ⟨rfl, ⟨_, _, rfl⟩, List.mem_filterMap, ?_, ?_⟩
  · obtain ⟨na, ia, ta, ima, sa⟩ := c
    cases na <;> cases ia <;> cases sa <;>
      simp [listItemProj, Except.isOk, Except.toBool]
  · intro n i st hn hi hst him
    cases hima : c.imageTagsA with
    | ok tags =>
      rw [hima] at him
      exact absurd him (by simp [Except.isOk, Except.toBool])
    | error ex =>
      simp [listItemProj, listItemImage, hn, hi, hst, hima]

/-- Witness for C8: a concrete container with a failing image-tag read and
readable name/id/status projects to an entry with image `'unknown'`. -/
theorem list_containers_scan_witness :
    (Except.ok "w" : Except PyExc String) = .ok "w"
    ∧ listItemProj ⟨.ok "w", .ok "0123456789abcdef", .error (.otherExc "x"),
        .ok "img", .ok "up"⟩
      = some ⟨"w", pyTake 12 "0123456789abcdef", "unknown", "up"⟩ := by
  refine ⟨rfl, ?_⟩
  exact (list_containers_scan [] ⟨.ok "w", .ok "0123456789abcdef", .error (.otherExc "x"),
      .ok "img", .ok "up"⟩ ⟨"", "", "", ""⟩).2.2.2.2 "w" "0123456789abcdef" "up"
    rfl rfl rfl (by decide)

/-- The two observation modes the projections use on a label map — `pyOr`
chains and `getD \x22\x22` — cannot tell a key bound to `""` from an absent
key. -/
theorem label_congr (L1 L2 : Labels) (k : String)
    (h1 : dictGet L1 k = some "") (h2 : dictGet L2 k = none)
    (heq : ∀ key, key ≠ k → dictGet L1 key = dictGet L2 key) :
    (∀ kc b, pyOr (dictGet L1 kc) b = pyOr (dictGet L2 kc) b)
    ∧ (∀ kc, dictGetD L1 kc "" = dictGetD L2 kc "") := by
  constructor
  · intro kc b
    by_cases hk : kc = k
    · subst hk
      rw [h1, h2]
      simp [pyOr]
    · rw [heq kc hk]
  · intro kc
    by_cases hk : kc = k
    · subst hk
      rw [dictGetD, dictGetD, h1, h2]
      rfl
    · rw [dictGetD, dictGetD, heq kc hk]

/-- C9: a label present but bound to the empty string behaves exactly like
an absent label in every projection: `get_service_info_from_labels`,
`get_enabled_services` and the `/by-label` handler (for filters on a
different key, since the match predicate — unlike the projection — uses
`==` rather than truthiness) give identical results for two label maps
that differ only in carrying `k ↦ ""` versus not carrying `k`. -/
theorem empty_label_equals_absent (L1 L2 : Labels) (k n q : String)
    (h1 : dictGet L1 k = some "") (h2 : dictGet L2 k = none)
    (heq : ∀ key, key ≠ k → dictGet L1 key = dictGet L2 key) :
    serviceFromLabels L1 n = serviceFromLabels L2 n
    ∧ get_service_info_from_labels (.ok ⟨some L1, n⟩) q
      = get_service_info_from_labels (.ok ⟨some L2, n⟩) q
    ∧ get_enabled_services (.ok [⟨some L1, n⟩])
      = get_enabled_services (.ok [⟨some L2, n⟩])
    ∧ (∀ fk fv, fk ≠ k → pyHasChar fk '=' = false →
        packages_by_label (some (fk ++ "=" ++ fv)) (.ok [⟨some L1, n⟩])
        = packages_by_label (some (fk ++ "=" ++ fv)) (.ok [⟨some L2, n⟩])) := by
  obtain ⟨hOr, hGetD⟩ := label_congr L1 L2 k h1 h2 heq
  have hsvc : serviceFromLabels L1 n = serviceFromLabels L2 n := by
    unfold serviceFromLabels
    rw [hOr "dockinfo.service.name" n, hOr "dockinfo.name" _,
        hGetD "dockinfo.url", hOr "dockinfo.service.url" _,
        hGetD "dockinfo.description"]
  refine ⟨hsvc, ?_, ?_, ?_⟩
  · show SvcResult.ok (serviceFromLabels L1 n) = SvcResult.ok (serviceFromLabels L2 n)
    rw [hsvc]
  · have hitem :
        (if pyLower (dictGetD L1 "dockinfo.enable" "") ≠ "true" then none
         else if (serviceFromLabels L1 n).name ≠ "" then
           some (serviceFromLabels L1 n) else none)
      = (if pyLower (dictGetD L2 "dockinfo.enable" "") ≠ "true" then none
         else if (serviceFromLabels L2 n).name ≠ "" then
           some (serviceFromLabels L2 n) else none) := by
      rw [hGetD "dockinfo.enable", hsvc]
    have hunf : ∀ L : Labels, get_enabled_services (.ok [⟨some L, n⟩])
        = List.filterMap (fun c : LContainer =>
            if pyLower (dictGetD c.effLabels "dockinfo.enable" "") ≠ "true" then none
            else if (serviceFromLabels c.effLabels c.name).name ≠ "" then
              some (serviceFromLabels c.effLabels c.name) else none) [⟨some L, n⟩] :=
      fun L => rfl
    rw [hunf L1, hunf L2]
    simp only [List.filterMap_cons, List.filterMap_nil, LContainer.effLabels,
      Option.getD_some]
    rw [hitem]
  · intro fk fv hfk hfkeq
    have hkv := splitOnceEq_append fk fv hfkeq
    have hdata : (fk ++ "=" ++ fv).data = fk.data ++ '=' :: fv.data := by
      simp [String.data_append]
    have hcont : pyHasChar (fk ++ "=" ++ fv) '=' = true := by
      rw [pyHasChar, hdata]
      simp [List.contains, List.elem_eq_mem]
    have hfne : ¬ (fk ++ "=" ++ fv) = "" := by
      intro hff
      rw [hff] at hcont
      exact absurd hcont (by decide)
    have hitem2 :
        (if dictGet L1 (splitOnceEq (fk ++ "=" ++ fv)).1
            = some (splitOnceEq (fk ++ "=" ++ fv)).2 then
          (if (serviceFromLabels L1 n).name ≠ "" then
            some (serviceFromLabels L1 n) else none)
         else none)
      = (if dictGet L2 (splitOnceEq (fk ++ "=" ++ fv)).1
            = some (splitOnceEq (fk ++ "=" ++ fv)).2 then
          (if (serviceFromLabels L2 n).name ≠ "" then
            some (serviceFromLabels L2 n) else none)
         else none) := by
      rw [hkv, heq fk hfk, hsvc]
    have hlists :
        List.filterMap (fun c : LContainer =>
            if dictGet c.effLabels (splitOnceEq (fk ++ "=" ++ fv)).1
                = some (splitOnceEq (fk ++ "=" ++ fv)).2 then
              (if (serviceFromLabels c.effLabels c.name).name ≠ "" then
                some (serviceFromLabels c.effLabels c.name) else none)
            else none) [(⟨some L1, n⟩ : LContainer)]
      = List.filterMap (fun c : LContainer =>
            if dictGet c.effLabels (splitOnceEq (fk ++ "=" ++ fv)).1
                = some (splitOnceEq (fk ++ "=" ++ fv)).2 then
              (if (serviceFromLabels c.effLabels c.name).name ≠ "" then
                some (serviceFromLabels c.effLabels c.name) else none)
            else none) [(⟨some L2, n⟩ : LContainer)] := by
      simp only [List.filterMap_cons, List.filterMap_nil, LContainer.effLabels,
        Option.getD_some]
      rw [hitem2]
    have hunf2 : ∀ L : Labels,
        packages_by_label (some (fk ++ "=" ++ fv)) (.ok [⟨some L, n⟩])
        = (if (fk ++ "=" ++ fv) = "" then
            ByLabelResp.badRequest "Label filter required (e.g., ?label=dockinfo.enable=true)"
          else if ¬ pyHasChar (fk ++ "=" ++ fv) '=' then
            ByLabelResp.badRequest "Label filter must be in format key=value"
          else
            ByLabelResp.ok (fk ++ "=" ++ fv)
              (List.filterMap (fun c : LContainer =>
            if dictGet c.effLabels (splitOnceEq (fk ++ "=" ++ fv)).1
                = some (splitOnceEq (fk ++ "=" ++ fv)).2 then
              (if (serviceFromLabels c.effLabels c.name).name ≠ "" then
                some (serviceFromLabels c.effLabels c.name) else none)
            else none) [(⟨some L, n⟩ : LContainer)]).length
              (List.filterMap (fun c : LContainer =>
            if dictGet c.effLabels (splitOnceEq (fk ++ "=" ++ fv)).1
                = some (splitOnceEq (fk ++ "=" ++ fv)).2 then
              (if (serviceFromLabels c.effLabels c.name).name ≠ "" then
                some (serviceFromLabels c.effLabels c.name) else none)
            else none) [(⟨some L, n⟩ : LContainer)])) :=
      fun L => rfl
    rw [hunf2 L1, hunf2 L2, if_neg hfne, if_neg hfne,
        if_neg (by simp [hcont]), if_neg (by simp [hcont]), hlists]

/-- Witness for C9: the map `[dockinfo.name ↦ ""]` projects exactly like
the empty map — the name falls back to the runtime-assigned one. -/
theorem empty_label_equals_absent_witness :
    serviceFromLabels [("dockinfo.name", "")] "web" = serviceFromLabels [] "web"
    ∧ serviceFromLabels [("dockinfo.name", "")] "web" = ⟨"web", "", ""⟩ := by
  refine ⟨(empty_label_equals_absent [("dockinfo.name", "")] [] "dockinfo.name"
      "web" "web" rfl rfl ?_).1, by decide⟩
  intro key hk
  show List.lookup key [("dockinfo.name", "")] = List.lookup key []
  simp [List.lookup, beq_eq_false_iff_ne.mpr hk]

/-- C10: for `/package` (query form) and `/my-info`, a non-empty
`X-Container-Name` header wins regardless of the `container` query
parameter; when the header is absent or empty, a non-empty query
parameter is used; and when both are missing or empty the handlers
return the 400 error body. -/
theorem header_precedence (q : Option String) (hv qv : String)
    (lookup : String → Except PyExc LContainer)
    (hhv : hv ≠ "") (hqv : qv ≠ "") :
    (package_info_query (some hv) q lookup
        = .ok (get_service_info_from_labels (lookup hv) hv)
      ∧ my_info (some hv) q lookup
        = .ok (get_service_info_from_labels (lookup hv) hv))
    ∧ (∀ h0, (h0 = none ∨ h0 = some "") →
        package_info_query h0 (some qv) lookup
          = .ok (get_service_info_from_labels (lookup qv) qv)
        ∧ my_info h0 (some qv) lookup
          = .ok (get_service_info_from_labels (lookup qv) qv))
    ∧ (∀ h0 q0, (h0 = none ∨ h0 = some "") → (q0 = none ∨ q0 = some "") →
        (∃ m, package_info_query h0 q0 lookup = .badRequest m)
        ∧ (∃ m hint, my_info h0 q0 lookup = .badRequest m hint)) := by
  refine ⟨?_, ?_, ?_⟩
  · constructor <;> simp [package_info_query, my_info, pyOrOpt, hhv]
  · rintro h0 (rfl | rfl) <;> constructor <;>
      simp [package_info_query, my_info, pyOrOpt, hqv]
  · rintro h0 q0 (rfl | rfl) (rfl | rfl) <;> constructor <;>
      simp [package_info_query, my_info, pyOrOpt]

/-- Witness for C10: with header `svc-a` and query `svc-b`, both handlers
resolve `svc-a`. -/
theorem header_precedence_witness :
    package_info_query (some "svc-a") (some "svc-b") (fun _ => .error (.notFound "x"))
      = .ok (get_service_info_from_labels (.error (.notFound "x")) "svc-a")
    ∧ my_info (some "svc-a") (some "svc-b") (fun _ => .error (.notFound "x"))
      = .ok (get_service_info_from_labels (.error (.notFound "x")) "svc-a") :=
  (header_precedence (some "svc-b") "svc-a" "svc-b" (fun _ => .error (.notFound "x"))
    (by decide) (by decide)).1

end Dockinfo
